import Mathlib

/-!
Verification of the Localcrust marketplace frontend: a shallow embedding of
the order checkout, baker order-status dashboard, and review/reply workflow,
with theorems settling the specification claims about them.

Money amounts are modelled as rationals; the JavaScript idiom Math.round is
modelled as the floor of the argument plus one half, which agrees with the
JavaScript semantics on all real inputs.
-/

namespace LocalCrust

/-- JavaScript Math.round: floor of the argument plus one half. -/
def jsRound (q : ℚ) : ℤ := ⌊q + 1/2⌋

/-- Drop leading and trailing whitespace from a character list. -/
def trimChars (l : List Char) : List Char :=
  ((l.dropWhile Char.isWhitespace).reverse.dropWhile Char.isWhitespace).reverse

/-- JavaScript String.prototype.trim: the string without leading and trailing
whitespace. -/
def jsTrim (s : String) : String := String.mk (trimChars s.data)

/-- JavaScript truthiness of a nullable string: null and the empty string are
falsy, every other string is truthy. -/
def jsTruthyStr : Option String → Bool
  | none => false
  | some s => !(s == "")

/-! ## Data model: products, cart, addresses (marketplace.ts) -/

/-- The product fields used by the checkout flow (marketplace.ts Product). -/
structure Product where
  id : Nat
  name : String
  category : String
  price : ℚ
  in_stock : Bool
deriving DecidableEq

/-- A cart line (marketplace.ts CartItem): a product with a quantity. -/
structure CartItem where
  product : Product
  quantity : Nat
deriving DecidableEq

/-- Delivery address fields (marketplace.ts Address). -/
structure Address where
  fullName : String
  phone : String
  addressLine1 : String
  addressLine2 : String
  city : String
  state : String
  pincode : String
  landmark : String
deriving DecidableEq

/-! ## Checkout (checkout-view component) -/

/-- getTotalPrice from the checkout view: reduce over the cart summing
price times quantity, starting from zero. -/
def getTotalPrice (cart : List CartItem) : ℚ :=
  cart.foldl (fun sum item => sum + item.product.price * item.quantity) 0

/-- One line of the create-order request body (orderAPI.createOrder items). -/
structure OrderItemReq where
  product_id : Nat
  quantity : Nat
  price : ℚ
deriving DecidableEq

/-- The create-order request body assembled by handlePayment. -/
structure OrderData where
  items : List OrderItemReq
  delivery_address : Address
  total_amount : ℚ
deriving DecidableEq

/-- The orderData object built in handlePayment: items map each cart line to
its product id, quantity and snapshotted unit price, and total_amount is
getTotalPrice of the cart. -/
def buildOrderData (cart : List CartItem) (address : Address) : OrderData :=
  { items := cart.map (fun item =>
      { product_id := item.product.id
        quantity := item.quantity
        price := item.product.price })
    delivery_address := address
    total_amount := getTotalPrice cart }

/-- The amount field handed to the Razorpay options: Math.round of the cart
total times one hundred, in paise. -/
def amountPaise (cart : List CartItem) : ℤ := jsRound (getTotalPrice cart * 100)

/-- The whole-rupee figure shown on the order summary and the Pay button:
Math.round of the cart total. -/
def displayedTotalRupees (cart : List CartItem) : ℤ := jsRound (getTotalPrice cart)

/-! ## Checkout payment flow (handlePayment in the checkout view) -/

/-- The create-order response fields used by handlePayment
(id, human-readable order code, gateway order reference). -/
structure CreatedOrder where
  id : Nat
  order_id : String
  razorpay_order_id : Option String
deriving DecidableEq

/-- Observable steps of the handlePayment control flow. -/
inductive PayEvent where
  | orderCreated (data : OrderData)
  | errorShown (msg : String)
  | widgetOpened (rzpOrderId : String) (amount : ℤ)
  | paymentStatusSent (orderDbId : Nat) (paymentId : String) (paymentStatus : String)
  | successShown (orderCode : String)
  | cartCleared
deriving DecidableEq

/-- The handlePayment flow: load the gateway script, create the order in the
backend, abort when the response lacks a truthy razorpay_order_id, otherwise
open the widget with the amount in paise; on the gateway success callback send
the payment-status update marked completed, then show the success view and
clear the stored cart (or show the verification error when that update
fails). -/
def handlePayment (scriptLoaded : Bool) (cart : List CartItem) (address : Address)
    (createResp : CreatedOrder) (gatewayPaymentId : Option String)
    (updateOk : Bool) : List PayEvent :=
  if !scriptLoaded then
    [.errorShown "Failed to load Razorpay SDK"]
  else
    .orderCreated (buildOrderData cart address) ::
    match createResp.razorpay_order_id with
    | none => [.errorShown "Failed to create payment order. Please try again."]
    | some rzp =>
      if rzp == "" then
        [.errorShown "Failed to create payment order. Please try again."]
      else
        .widgetOpened rzp (amountPaise cart) ::
        match gatewayPaymentId with
        | none => []
        | some pid =>
          if updateOk then
            [.paymentStatusSent createResp.id pid "completed",
             .successShown createResp.order_id, .cartCleared]
          else
            [.paymentStatusSent createResp.id pid "completed",
             .errorShown "Payment verification failed. Please contact support."]

/-! ## Baker order-status update (api/baker.ts and the dashboard) -/

/-- A status-update request as assembled by bakerAPI.updateOrderStatus:
a PUT to the per-order status endpoint with the status in the body. -/
structure StatusUpdateRequest where
  path : String
  method : String
  status : String
deriving DecidableEq

/-- bakerAPI.updateOrderStatus: PUT /baker/orders/{orderId}/status with
body { status }. -/
def updateOrderStatus (orderId : Nat) (status : String) : StatusUpdateRequest :=
  { path := "/baker/orders/" ++ toString orderId ++ "/status"
    method := "PUT"
    status := status }

/-- handleUpdateOrderStatus in the baker dashboard: forwards the order id and
the target status to bakerAPI.updateOrderStatus as given. -/
def handleUpdateOrderStatus (orderId : Nat) (status : String) : StatusUpdateRequest :=
  updateOrderStatus orderId status

/-- The advance button rendered in the baker dashboard orders tab for an order
with the given status: each branch of the JSX renders one button whose click
handler requests the hard-coded target status, and no branch matches
delivered or cancelled. -/
def renderedAdvanceTarget (status : String) : Option String :=
  if status == "pending" then some "confirmed"
  else if status == "confirmed" then some "preparing"
  else if status == "preparing" then some "ready"
  else if status == "ready" then some "out_for_delivery"
  else if status == "out_for_delivery" then some "delivered"
  else none

/-- Modelled from the spec: the fixed fulfillment sequence
pending, confirmed, preparing, ready, out_for_delivery, delivered. -/
def specStatusSequence : List String :=
  ["pending", "confirmed", "preparing", "ready", "out_for_delivery", "delivered"]

/-- Immediate successor within a list of statuses. -/
def succInSeq : List String → String → Option String
  | a :: b :: rest, s => if s == a then some b else succInSeq (b :: rest) s
  | _, _ => none

/-- Modelled from the spec: the immediate successor of a status in the fixed
fulfillment sequence, none for the last element and for statuses outside the
sequence (such as cancelled). -/
def specNextStatus (s : String) : Option String := succInSeq specStatusSequence s

/-- The full status vocabulary of the order filter dropdown in the dashboard
(every value the system uses, the terminal cancelled state included). -/
def orderStatuses : List String :=
  ["pending", "confirmed", "preparing", "ready", "out_for_delivery",
   "delivered", "cancelled"]

/-! ## Customer orders view and the review modal -/

/-- An order line as shown in the customer views and handed to the review
modal (product_id is optional in the modal item type). -/
structure ModalItem where
  product_id : Option Nat
  product_name : String
  quantity : Nat
  price : ℚ
deriving DecidableEq

/-- A customer order as rendered in the profile orders tab. -/
structure CustomerOrder where
  id : Nat
  order_id : String
  status : String
  total_amount : ℚ
  items : List ModalItem
deriving DecidableEq

/-- The condition guarding the Write Review button in the customer profile
orders tab: the order status is the literal delivered. -/
def writeReviewRendered (o : CustomerOrder) : Bool :=
  o.status == "delivered"

/-- The request body of a review submission from the review modal. -/
structure ReviewBody where
  product_id : Nat
  rating : Nat
  comment : String
deriving DecidableEq

/-- Outcome of the review-modal submit handler: a client-side rejection with
an alert message, or a POST to a path with a body. -/
inductive SubmitResult where
  | rejected (msg : String)
  | sent (path : String) (body : ReviewBody)
deriving DecidableEq

/-- handleSubmit of the review modal: rejects a zero rating, an
all-whitespace comment, and a falsy product id (absent or zero), and
otherwise posts the rating and trimmed comment to the per-order review
endpoint. -/
def handleSubmit (rating : Nat) (comment : String) (orderDbId : Nat)
    (item : ModalItem) : SubmitResult :=
  if rating == 0 then
    .rejected "Please select a rating"
  else if jsTrim comment == "" then
    .rejected "Please write a comment"
  else
    match item.product_id with
    | none => .rejected "Product ID not found"
    | some pid =>
      if pid == 0 then
        .rejected "Product ID not found"
      else
        .sent ("/orders/" ++ toString orderDbId ++ "/review")
          { product_id := pid, rating := rating, comment := jsTrim comment }

/-- The review-modal submission for a displayed order: the modal passes only
the order database id (in the URL) and the selected item to handleSubmit. -/
def modalSubmitForOrder (o : CustomerOrder) (rating : Nat) (comment : String)
    (item : ModalItem) : SubmitResult :=
  handleSubmit rating comment o.id item

/-- The star values offered by the review-modal star picker. -/
def starValues : List Nat := [1, 2, 3, 4, 5]

/-- Rating states reachable in the review modal: the rating starts at zero,
each star button sets it to one of the five star values, and submit or close
reset it to zero. -/
inductive RatingReachable : Nat → Prop where
  | init : RatingReachable 0
  | select {r k : Nat} : RatingReachable r → k ∈ starValues → RatingReachable k
  | reset {r : Nat} : RatingReachable r → RatingReachable 0

/-! ## reviewAPI (api/features.ts) -/

/-- The argument record of reviewAPI.addReview. -/
structure AddReviewData where
  product_id : Nat
  baker_id : Nat
  rating : Nat
  comment : String
deriving DecidableEq

/-- The JSON keys of the reviewAPI.addReview request body, in declaration
order. -/
def addReviewBodyKeys : List String :=
  ["product_id", "baker_id", "rating", "comment"]

/-- A generic API request with a path, a method and the body keys it
carries. -/
structure ApiRequest where
  path : String
  method : String
  bodyKeys : List String
deriving DecidableEq

/-- reviewAPI.addReview: POST /reviews with the product id, baker id, rating
and comment as the body. -/
def addReviewRequest (_data : AddReviewData) : ApiRequest :=
  { path := "/reviews", method := "POST", bodyKeys := addReviewBodyKeys }

/-! ## Baker reviews management view -/

/-- A review as held by the baker reviews management component. -/
structure ClientReview where
  id : Nat
  product_id : Nat
  product_name : String
  customer_name : String
  rating : Nat
  comment : String
  baker_reply : Option String
  reply_at : Option String
  has_reply : Bool
deriving DecidableEq

/-- fetchReviews post-processing: has_reply is recomputed from the truthiness
of baker_reply on every fetched review. -/
def fetchNormalize (reviews : List ClientReview) : List ClientReview :=
  reviews.map (fun r => { r with has_reply := jsTruthyStr r.baker_reply })

/-- The reply-form guard in the reviews list: the form (or the Reply button)
is rendered exactly when has_reply is false. -/
def showReplyForm (r : ClientReview) : Bool := !r.has_reply

/-- The review fields returned by a successful reply POST. -/
structure ReplyResp where
  baker_reply : String
  reply_at : String
deriving DecidableEq

/-- The local-state update handleReply performs after a successful reply
POST: the matching review gets the returned reply text and timestamp and
has_reply set to true; every other review is unchanged. -/
def applyReplySuccess (reviews : List ClientReview) (reviewId : Nat)
    (resp : ReplyResp) : List ClientReview :=
  reviews.map (fun r =>
    if r.id == reviewId then
      { r with baker_reply := some resp.baker_reply
               reply_at := some resp.reply_at
               has_reply := true }
    else r)

/-- The replied classification used by the filter and the counters: the
truthiness of baker_reply. -/
def hasActualReply (r : ClientReview) : Bool := jsTruthyStr r.baker_reply

/-- The filter tabs of the reviews list. -/
inductive ReviewFilter where
  | all
  | pending
  | replied
deriving DecidableEq

/-- filteredReviews: all passes everything, pending keeps reviews without an
actual reply, replied keeps reviews with one. -/
def filteredReviews (filter : ReviewFilter) (reviews : List ClientReview) :
    List ClientReview :=
  match filter with
  | .all => reviews
  | .pending => reviews.filter (fun r => !(hasActualReply r))
  | .replied => reviews.filter (fun r => hasActualReply r)

/-- pendingCount: reviews whose baker_reply is falsy. -/
def pendingCount (reviews : List ClientReview) : Nat :=
  (reviews.filter (fun r => !(hasActualReply r))).length

/-- repliedCount: reviews whose baker_reply is truthy. -/
def repliedCount (reviews : List ClientReview) : Nat :=
  (reviews.filter (fun r => hasActualReply r)).length

/-! ## Helper lemmas -/

/-- A left fold accumulating sums equals the starting value plus the sum of
the mapped list. -/
lemma foldl_add_map_sum (f : CartItem → ℚ) (l : List CartItem) (a : ℚ) :
    l.foldl (fun s x => s + f x) a = a + (l.map f).sum := by
  induction l generalizing a with
  | nil => simp
  | cons x xs ih => simp only [List.foldl, List.map, List.sum_cons, ih]; ring

/-- getTotalPrice is the sum over the cart of price times quantity. -/
lemma getTotalPrice_eq_sum (cart : List CartItem) :
    getTotalPrice cart
      = (cart.map (fun i => i.product.price * (i.quantity : ℚ))).sum := by
  unfold getTotalPrice
  rw [foldl_add_map_sum (fun i => i.product.price * (i.quantity : ℚ))]
  ring

/-- Math.round lands within half a unit of its argument. -/
lemma jsRound_abs_sub_le (q : ℚ) : |((jsRound q : ℤ) : ℚ) - q| ≤ 1/2 := by
  have h1 : ((⌊q + 1/2⌋ : ℤ) : ℚ) ≤ q + 1/2 := Int.floor_le _
  have h2 : q + 1/2 < ((⌊q + 1/2⌋ : ℤ) : ℚ) + 1 := Int.lt_floor_add_one _
  rw [jsRound, abs_le]
  constructor <;> linarith

/-- Rounding to whole rupees and rounding to paise disagree by at most fifty
paise. -/
lemma hundred_jsRound_sub_le (q : ℚ) :
    |100 * jsRound q - jsRound (q * 100)| ≤ 50 := by
  have h1 : ((⌊q + 1/2⌋ : ℤ) : ℚ) ≤ q + 1/2 := Int.floor_le _
  have h2 : q + 1/2 < ((⌊q + 1/2⌋ : ℤ) : ℚ) + 1 := Int.lt_floor_add_one _
  have hb1 : ((⌊q * 100 + 1/2⌋ : ℤ) : ℚ) ≤ q * 100 + 1/2 := Int.floor_le _
  have hb2 : q * 100 + 1/2 < ((⌊q * 100 + 1/2⌋ : ℤ) : ℚ) + 1 := Int.lt_floor_add_one _
  have key1 : jsRound (q * 100) ≤ 100 * jsRound q + 50 := by
    have hq : ((⌊q * 100 + 1/2⌋ : ℤ) : ℚ) < 100 * ((⌊q + 1/2⌋ : ℤ) : ℚ) + 51 := by
      linarith
    have : (⌊q * 100 + 1/2⌋ : ℤ) < 100 * ⌊q + 1/2⌋ + 51 := by exact_mod_cast hq
    rw [jsRound, jsRound]
    omega
  have key2 : 100 * jsRound q - 50 ≤ jsRound (q * 100) := by
    have hq : 100 * ((⌊q + 1/2⌋ : ℤ) : ℚ) - 50 < ((⌊q * 100 + 1/2⌋ : ℤ) : ℚ) + 1 := by
      linarith
    have : 100 * ⌊q + 1/2⌋ - 50 < (⌊q * 100 + 1/2⌋ : ℤ) + 1 := by exact_mod_cast hq
    rw [jsRound, jsRound]
    omega
  rw [abs_le]
  omega

/-! ## Claim theorems -/

/-- C1: for every order created at checkout, the total_amount of the
create-order request equals the sum over the submitted line items of price
times quantity, and those line items snapshot exactly the cart products'
unit prices and quantities; the total is getTotalPrice of the same cart, not
a figure from any other source. -/
theorem checkout_total_is_snapshot_sum (cart : List CartItem) (address : Address) :
    (buildOrderData cart address).total_amount
      = ((buildOrderData cart address).items.map
          (fun it => it.price * (it.quantity : ℚ))).sum
    ∧ List.Forall₂
        (fun (it : OrderItemReq) (ci : CartItem) =>
          it.product_id = ci.product.id ∧ it.quantity = ci.quantity
            ∧ it.price = ci.product.price)
        (buildOrderData cart address).items cart
    ∧ (buildOrderData cart address).total_amount = getTotalPrice cart := by
  refine ⟨?_, ?_, rfl⟩
  · show getTotalPrice cart = _
    rw [getTotalPrice_eq_sum]
    simp only [buildOrderData, List.map_map]
    rfl
  · simp only [buildOrderData, List.forall₂_map_left_iff]
    exact List.forall₂_same.mpr (fun ci _ => ⟨rfl, rfl, rfl⟩)

/-- A one-item cart whose exact total is ten and a half rupees, exhibiting
the half-rupee gap between the displayed and the charged amount. -/
def halfRupeeCart : List CartItem :=
  [{ product := { id := 1, name := "Cake", category := "Cakes",
                  price := 21/2, in_stock := true }, quantity := 1 }]

/-- C10: the amount handed to the payment gateway is Math.round of one
hundred times the exact cart total, derived from the exact total and not
from the rounded whole-rupee figure shown on the summary and the Pay button;
the displayed figure can differ from the charged amount by up to fifty paise
(half a rupee), attained by a one-item cart priced at ten and a half rupees,
and the displayed figure differs from the exact total (the order's
total_amount) by at most half a rupee. -/
theorem gateway_amount_rounding (cart : List CartItem) :
    amountPaise cart = jsRound (getTotalPrice cart * 100)
    ∧ |100 * displayedTotalRupees cart - amountPaise cart| ≤ 50
    ∧ |((displayedTotalRupees cart : ℤ) : ℚ) - getTotalPrice cart| ≤ 1/2
    ∧ getTotalPrice halfRupeeCart = 21/2
    ∧ amountPaise halfRupeeCart = 1050
    ∧ displayedTotalRupees halfRupeeCart = 11
    ∧ 100 * displayedTotalRupees halfRupeeCart - amountPaise halfRupeeCart = 50 := by
  have htot : getTotalPrice halfRupeeCart = 21/2 := by
    simp [getTotalPrice, halfRupeeCart, List.foldl]
  have hamt : amountPaise halfRupeeCart = 1050 := by
    rw [amountPaise, htot, jsRound, Int.floor_eq_iff]
    norm_num
  have hdisp : displayedTotalRupees halfRupeeCart = 11 := by
    rw [displayedTotalRupees, htot, jsRound, Int.floor_eq_iff]
    norm_num
  refine ⟨rfl, hundred_jsRound_sub_le (getTotalPrice cart),
    jsRound_abs_sub_le (getTotalPrice cart), htot, hamt, hdisp, ?_⟩
  rw [hamt, hdisp]
  norm_num

/-- C2: updateOrderStatus sends the caller-supplied target status for the
given order unconditionally: for every order id and every status string the
wrapper emits a PUT to the per-order status endpoint carrying exactly that
status, with no reference to the current status; in particular a target
outside the status vocabulary altogether still goes through. -/
theorem update_status_unconditional :
    (∀ (orderId : Nat) (status : String),
      handleUpdateOrderStatus orderId status
        = { path := "/baker/orders/" ++ toString orderId ++ "/status"
            method := "PUT"
            status := status })
    ∧ (handleUpdateOrderStatus 7 "garbage").status = "garbage"
    ∧ "garbage" ∉ orderStatuses
    ∧ (handleUpdateOrderStatus 7 "pending").status = "pending" := by
  refine ⟨fun orderId status => rfl, rfl, ?_, rfl⟩
  decide

/-- C3: the advance button rendered in the baker orders tab requests exactly
the immediate successor of the current status in the fixed fulfillment
sequence, and no advance button is rendered for delivered or cancelled
orders. -/
theorem orders_tab_advances_one_step :
    (∀ s : String, renderedAdvanceTarget s = specNextStatus s)
    ∧ renderedAdvanceTarget "delivered" = none
    ∧ renderedAdvanceTarget "cancelled" = none := by
  refine ⟨fun s => ?_, rfl, rfl⟩
  simp only [renderedAdvanceTarget, specNextStatus, specStatusSequence, succInSeq]

/-- C4: checkout creates the order before confirming payment: handlePayment
submits the cart snapshot and delivery address via createOrder; when the
response lacks a truthy razorpay_order_id it aborts with an error and never
opens the payment widget; otherwise it opens the gateway widget, and on the
gateway success callback it sends the payment-status update with status
completed and the gateway payment id, then shows the success view and clears
the stored cart. -/
theorem checkout_payment_flow (cart : List CartItem) (address : Address)
    (dbId : Nat) (orderCode : String) :
    (∀ (gw : Option String) (updateOk : Bool),
      handlePayment true cart address
          { id := dbId, order_id := orderCode, razorpay_order_id := none }
          gw updateOk
        = [.orderCreated (buildOrderData cart address),
           .errorShown "Failed to create payment order. Please try again."])
    ∧ (∀ (gw : Option String) (updateOk : Bool) (rzp : String) (amt : ℤ),
        PayEvent.widgetOpened rzp amt ∉
          handlePayment true cart address
            { id := dbId, order_id := orderCode, razorpay_order_id := none }
            gw updateOk)
    ∧ (∀ (rzp : String), rzp ≠ "" → ∀ updateOk : Bool,
        handlePayment true cart address
            { id := dbId, order_id := orderCode, razorpay_order_id := some rzp }
            none updateOk
          = [.orderCreated (buildOrderData cart address),
             .widgetOpened rzp (amountPaise cart)])
    ∧ (∀ (rzp : String), rzp ≠ "" → ∀ pid : String,
        handlePayment true cart address
            { id := dbId, order_id := orderCode, razorpay_order_id := some rzp }
            (some pid) true
          = [.orderCreated (buildOrderData cart address),
             .widgetOpened rzp (amountPaise cart),
             .paymentStatusSent dbId pid "completed",
             .successShown orderCode,
             .cartCleared]) := by
  refine ⟨fun gw updateOk => rfl, fun gw updateOk rzp amt h => ?_,
    fun rzp hrzp updateOk => ?_, fun rzp hrzp pid => ?_⟩
  · simp [handlePayment] at h
  · simp [handlePayment, hrzp]
  · simp [handlePayment, hrzp]

/-- A concrete delivery address used by witnesses. -/
def witnessAddress : Address :=
  { fullName := "A", phone := "9", addressLine1 := "L1", addressLine2 := "",
    city := "Mumbai", state := "MH", pincode := "400001", landmark := "" }

/-- Witness for C4 at a concrete empty cart, order 3 with code ORD3, gateway
order rzp_1 and payment pay_1. -/
theorem checkout_payment_flow_witness :
    handlePayment true [] witnessAddress
        { id := 3, order_id := "ORD3", razorpay_order_id := some "rzp_1" }
        (some "pay_1") true
      = [.orderCreated (buildOrderData [] witnessAddress),
         .widgetOpened "rzp_1" (amountPaise []),
         .paymentStatusSent 3 "pay_1" "completed",
         .successShown "ORD3",
         .cartCleared] :=
  (checkout_payment_flow [] witnessAddress 3 "ORD3").2.2.2 "rzp_1" (by decide) "pay_1"

/-- A concrete review without a baker reply, used by witnesses. -/
def sampleReviewPending : ClientReview :=
  { id := 1, product_id := 10, product_name := "Cake", customer_name := "Asha",
    rating := 5, comment := "Great", baker_reply := none, reply_at := none,
    has_reply := false }

/-- A concrete review that already carries a baker reply, used by
witnesses. -/
def sampleReviewReplied : ClientReview :=
  { id := 2, product_id := 11, product_name := "Bread", customer_name := "Ravi",
    rating := 4, comment := "Good", baker_reply := some "Thanks",
    reply_at := some "2024-05-01", has_reply := true }

/-- C5: the reply form is rendered only for reviews displayed as not yet
replied: after the fetch normalisation the form shows exactly when
baker_reply is falsy, and a successful replyToReview marks the matching
review as replied (baker_reply and reply_at set, has_reply true), after
which the form is no longer offered for it. -/
theorem single_baker_reply_client_view :
    (∀ (reviews : List ClientReview) (r : ClientReview),
      r ∈ fetchNormalize reviews →
        (showReplyForm r = true ↔ jsTruthyStr r.baker_reply = false))
    ∧ (∀ (reviews : List ClientReview) (reviewId : Nat) (resp : ReplyResp)
         (r : ClientReview), r ∈ applyReplySuccess reviews reviewId resp →
        r.id = reviewId →
          r.has_reply = true ∧ showReplyForm r = false
            ∧ r.baker_reply = some resp.baker_reply
            ∧ r.reply_at = some resp.reply_at) := by
  constructor
  · intro reviews r hr
    obtain ⟨r0, _, rfl⟩ := List.mem_map.mp hr
    simp [showReplyForm]
  · intro reviews reviewId resp r hr hid
    obtain ⟨r0, _, rfl⟩ := List.mem_map.mp hr
    by_cases h : r0.id = reviewId
    · simp [h, showReplyForm]
    · have : (r0.id == reviewId) = false := by simpa using h
      simp [this] at hid ⊢
      exact absurd hid h

/-- The pending sample review after the reply update of handleReply. -/
def sampleReviewAfterReply : ClientReview :=
  { sampleReviewPending with
    baker_reply := some "Thanks",
    reply_at := some "2024-06-01",
    has_reply := true }

/-- Witness for C5: replying to the pending sample review yields a review the
client displays as replied, with the form hidden. -/
theorem single_baker_reply_client_view_witness :
    sampleReviewAfterReply.has_reply = true
    ∧ showReplyForm sampleReviewAfterReply = false
    ∧ sampleReviewAfterReply.baker_reply = some "Thanks"
    ∧ sampleReviewAfterReply.reply_at = some "2024-06-01" :=
  single_baker_reply_client_view.2 [sampleReviewPending] 1
    { baker_reply := "Thanks", reply_at := "2024-06-01" }
    sampleReviewAfterReply (by decide) rfl

/-- C6: the Write Review action in the customer order list is rendered
exactly when the order status is delivered, and the review submission itself
depends on the order only through its database id: two orders with the same
id but any two statuses produce identical submissions, so the rendering
condition is the only status gate. -/
theorem write_review_delivered_gate :
    (∀ o : CustomerOrder, writeReviewRendered o = true ↔ o.status = "delivered")
    ∧ (∀ (o o' : CustomerOrder), o.id = o'.id →
        ∀ (rating : Nat) (comment : String) (item : ModalItem),
          modalSubmitForOrder o rating comment item
            = modalSubmitForOrder o' rating comment item) := by
  constructor
  · intro o
    simp [writeReviewRendered]
  · intro o o' hid rating comment item
    simp [modalSubmitForOrder, hid]

/-- Witness for C6: a pending and a delivered order with the same id produce
identical review submissions. -/
theorem write_review_delivered_gate_witness :
    modalSubmitForOrder
        { id := 4, order_id := "ORD4", status := "pending", total_amount := 100,
          items := [] } 5 "Nice"
        { product_id := some 7, product_name := "Cake", quantity := 1, price := 100 }
      = modalSubmitForOrder
        { id := 4, order_id := "ORD4", status := "delivered", total_amount := 100,
          items := [] } 5 "Nice"
        { product_id := some 7, product_name := "Cake", quantity := 1, price := 100 } :=
  write_review_delivered_gate.2
    { id := 4, order_id := "ORD4", status := "pending", total_amount := 100,
      items := [] }
    { id := 4, order_id := "ORD4", status := "delivered", total_amount := 100,
      items := [] }
    rfl 5 "Nice"
    { product_id := some 7, product_name := "Cake", quantity := 1, price := 100 }

/-- When the review-modal submit handler sends a request, the body carries
the rating state unchanged and the path is the per-order review endpoint. -/
lemma handleSubmit_sent_inv {rating : Nat} {comment : String} {orderDbId : Nat}
    {item : ModalItem} {p : String} {b : ReviewBody}
    (h : handleSubmit rating comment orderDbId item = .sent p b) :
    b.rating = rating ∧ p = "/orders/" ++ toString orderDbId ++ "/review" := by
  unfold handleSubmit at h
  split at h
  · exact SubmitResult.noConfusion h
  · split at h
    · exact SubmitResult.noConfusion h
    · split at h
      · exact SubmitResult.noConfusion h
      · split at h
        · exact SubmitResult.noConfusion h
        · injection h with h1 h2
          subst h1
          subst h2
          exact ⟨rfl, rfl⟩

/-- Any reachable rating state of the review modal is zero or a star value. -/
lemma ratingReachable_cases {r : Nat} (h : RatingReachable r) :
    r = 0 ∨ r ∈ starValues := by
  induction h with
  | init => exact Or.inl rfl
  | select _ hk _ => exact Or.inr hk
  | reset _ _ => exact Or.inl rfl

/-- C7: every review submission the modal sends carries a rating between one
and five: the star picker can only set ratings one through five, and a zero
rating is rejected client-side with an alert and no request. -/
theorem review_rating_one_to_five :
    (∀ r : Nat, RatingReachable r →
      ∀ (comment : String) (orderDbId : Nat) (item : ModalItem)
        (p : String) (b : ReviewBody),
        handleSubmit r comment orderDbId item = .sent p b →
          1 ≤ b.rating ∧ b.rating ≤ 5)
    ∧ (∀ (comment : String) (orderDbId : Nat) (item : ModalItem),
        handleSubmit 0 comment orderDbId item = .rejected "Please select a rating") := by
  constructor
  · intro r hreach comment orderDbId item p b hsent
    have hb : b.rating = r := (handleSubmit_sent_inv hsent).1
    rcases ratingReachable_cases hreach with h0 | hmem
    · rw [h0] at hsent
      simp [handleSubmit] at hsent
    · simp only [starValues, List.mem_cons, List.not_mem_nil, or_false] at hmem
      omega
  · intro comment orderDbId item
    rfl

/-- Witness for C7: submitting with the reachable rating five sends a body
whose rating lies between one and five. -/
theorem review_rating_one_to_five_witness :
    1 ≤ (ReviewBody.mk 7 5 "Great").rating ∧ (ReviewBody.mk 7 5 "Great").rating ≤ 5 :=
  review_rating_one_to_five.1 5
    (RatingReachable.select RatingReachable.init (by decide))
    "Great" 1
    { product_id := some 7, product_name := "Cake", quantity := 1, price := 100 }
    "/orders/1/review" (ReviewBody.mk 7 5 "Great") (by decide)

/-- C8 counterexample: reviewAPI.addReview does not take an order identifier
at all: its body keys are product id, baker id, rating and comment, with no
order_id, and it posts to the collection path /reviews which names no
order. -/
theorem addReview_lacks_order_argument :
    "order_id" ∉ addReviewBodyKeys
    ∧ (addReviewRequest
        { product_id := 1, baker_id := 2, rating := 5, comment := "x" }).path
        = "/reviews" := by
  constructor
  · decide
  · rfl

/-- C8 amended: reviewAPI.addReview takes product id, baker id, rating and
comment (no order identifier) and posts them to /reviews; the review modal
does not use it and instead posts to the per-order path, so only the modal
path identifies the reviewed order, through the URL. -/
theorem review_submission_order_binding :
    (∀ d : AddReviewData,
      (addReviewRequest d).path = "/reviews"
        ∧ (addReviewRequest d).method = "POST"
        ∧ (addReviewRequest d).bodyKeys = addReviewBodyKeys)
    ∧ (∀ (rating : Nat) (comment : String) (orderDbId : Nat) (item : ModalItem)
         (p : String) (b : ReviewBody),
        handleSubmit rating comment orderDbId item = .sent p b →
          p = "/orders/" ++ toString orderDbId ++ "/review") := by
  refine ⟨fun d => ⟨rfl, rfl, rfl⟩, ?_⟩
  intro rating comment orderDbId item p b hsent
  exact (handleSubmit_sent_inv hsent).2

/-- Witness for C8 amended: a concrete modal submission for order 42 posts to
the per-order review path. -/
theorem review_submission_order_binding_witness :
    "/orders/42/review" = "/orders/" ++ toString 42 ++ "/review" :=
  review_submission_order_binding.2 5 "Nice" 42
    { product_id := some 7, product_name := "Cake", quantity := 1, price := 100 }
    "/orders/42/review" (ReviewBody.mk 7 5 "Nice") (by decide)

/-- The pending and replied counters add up to the length of the list. -/
lemma pending_add_replied (reviews : List ClientReview) :
    pendingCount reviews + repliedCount reviews = reviews.length := by
  induction reviews with
  | nil => rfl
  | cons r rs ih =>
    simp only [pendingCount, repliedCount, List.filter_cons, List.length_cons] at *
    cases h : hasActualReply r
    · simp only [h, Bool.not_false, if_true, if_false, List.length_cons,
        Bool.false_eq_true, ite_false, ite_true]
      omega
    · simp only [h, Bool.not_true, if_true, if_false, List.length_cons,
        Bool.false_eq_true, ite_false, ite_true]
      omega

/-- C9: pending and replied partition the baker reviews list: a review is
replied exactly when its baker_reply is truthy and pending exactly when it is
not, the two counters add up to the total, and each review of the list lies
in exactly one of the pending and replied filtered views (and in the all
view). -/
theorem pending_replied_partition (reviews : List ClientReview) :
    pendingCount reviews + repliedCount reviews = reviews.length
    ∧ ∀ r ∈ reviews,
        (r ∈ filteredReviews .pending reviews ↔ hasActualReply r = false)
        ∧ (r ∈ filteredReviews .replied reviews ↔ hasActualReply r = true)
        ∧ ¬(r ∈ filteredReviews .pending reviews
              ∧ r ∈ filteredReviews .replied reviews)
        ∧ r ∈ filteredReviews .all reviews := by
  refine ⟨pending_add_replied reviews, fun r hr => ?_⟩
  have hpend : r ∈ filteredReviews .pending reviews ↔ hasActualReply r = false := by
    simp [filteredReviews, List.mem_filter, hr]
  have hrepl : r ∈ filteredReviews .replied reviews ↔ hasActualReply r = true := by
    simp [filteredReviews, List.mem_filter, hr]
  refine ⟨hpend, hrepl, ?_, hr⟩
  rintro ⟨h1, h2⟩
  rw [hpend] at h1
  rw [hrepl] at h2
  rw [h1] at h2
  exact Bool.false_ne_true h2

/-- Witness for C9 on a two-element list holding one pending and one replied
review: the counters add to two and the pending sample sits in the pending
view. -/
theorem pending_replied_partition_witness :
    (sampleReviewPending ∈
        filteredReviews .pending [sampleReviewPending, sampleReviewReplied]
      ↔ hasActualReply sampleReviewPending = false)
    ∧ pendingCount [sampleReviewPending, sampleReviewReplied]
        + repliedCount [sampleReviewPending, sampleReviewReplied]
        = (2 : Nat) :=
  ⟨((pending_replied_partition [sampleReviewPending, sampleReviewReplied]).2
      sampleReviewPending (by simp)).1,
   (pending_replied_partition [sampleReviewPending, sampleReviewReplied]).1⟩

end LocalCrust
